import Mathlib

/-!
# Signal dispatcher (package `signals`)

A shallow embedding of `signals.go` / `signalDispatcher.go`.

* `signals` is the Go struct of the same name (handler map, inbound channel, logger)
  extended with three recording fields that make the effects of handlers observable:
  the handlers that were called, and the `Close` / `Reload` calls made on components.
* The dispatch loop `handle` and the goroutine it starts per delivery are sequentialised:
  one loop iteration (`iteration`) takes the snapshot and logs, `goBatch` is the body of
  the goroutine, and `deliver` runs the goroutine of an iteration to completion.
* A caller-supplied `func()` is opaque: it is identified by a number, and calling it
  returns.
-/

namespace GoSignals

/-- An `os.Signal`: the values used are `syscall.Signal` numbers. -/
abbrev Signal := Nat

/-- Signal numbers of package `syscall` (linux). -/
abbrev syscall.SIGHUP : Signal := 1
abbrev syscall.SIGINT : Signal := 2
abbrev syscall.SIGUSR1 : Signal := 10
abbrev syscall.SIGUSR2 : Signal := 12
abbrev syscall.SIGTERM : Signal := 15

/-- The value `os.Interrupt` is `syscall.SIGINT`. -/
abbrev os.Interrupt : Signal := syscall.SIGINT

abbrev SHUTDOWN : Signal := syscall.SIGTERM
abbrev RELOAD : Signal := syscall.SIGHUP
abbrev SIGINT : Signal := syscall.SIGINT
abbrev SIGTERM : Signal := syscall.SIGTERM
abbrev SIGHUP : Signal := syscall.SIGHUP
abbrev SIGUSR1 : Signal := syscall.SIGUSR1
abbrev SIGUSR2 : Signal := syscall.SIGUSR2

/-- A value of interface `Closer`: an object identity and what its `Close()` returns
(`none` is a nil error). -/
structure Closer where
  id : Nat
  Close : Option String
deriving DecidableEq, Repr

/-- A value of interface `Reloader`: an object identity and what its `Reload()` returns
(`none` is a nil error). -/
structure Reloader where
  id : Nat
  Reload : Option String
deriving DecidableEq, Repr

/-- A registered `func()`: either a function supplied by the caller of `On`, or one of the
two closures built by `RegisterCloser` and `RegisterReloader`, with the component they
capture. -/
inductive Handler where
  | func (id : Nat)
  | closerFn (c : Closer)
  | reloaderFn (r : Reloader)
deriving DecidableEq, Repr

/-- What the logger `s.log` is told: the message template and its parameters
(`NameParam` holds the signal whose `String()` is logged). -/
inductive LogEntry where
  | Info (msg : String) (name : Signal) (count : Nat)
  | Debug (msg : String) (name : Signal) (count : Nat)
  | Error (msg : String) (err : String)
deriving DecidableEq, Repr

/-- A non-nil `chan os.Signal`: whether `close` was called on it, and the values that were
sent and not yet received, oldest first. -/
structure Chan where
  closed : Bool
  queue : List Signal
deriving DecidableEq, Repr

/-- The Go type `map[os.Signal][]func()`. -/
abbrev HandlerMap := List (Signal × List Handler)

/-- The map read `m[sig]`: a missing key reads as the nil (empty) slice. -/
def HandlerMap.get (m : HandlerMap) (sig : Signal) : List Handler :=
  match m.find? (fun e => e.1 == sig) with
  | some e => e.2
  | none => []

/-- The map write `m[sig] = hs`: replaces the entry of an existing key, adds a new key
otherwise. -/
def HandlerMap.set (m : HandlerMap) (sig : Signal) (hs : List Handler) : HandlerMap :=
  if m.any (fun e => e.1 == sig) then
    m.map (fun e => if e.1 == sig then (sig, hs) else e)
  else
    m ++ [(sig, hs)]

/-- The struct `signals`. The mutex is not represented (operations are atomic here).
`source` is `none` for a nil channel. `log` is what the logger has received.
`invoked`, `closes` and `reloads` record, in order, the handlers called by dispatch
goroutines and the `Close()` / `Reload()` calls made on components. -/
structure signals where
  handlers : HandlerMap
  source : Option Chan
  log : List LogEntry
  invoked : List Handler
  closes : List Closer
  reloads : List Reloader
deriving DecidableEq, Repr

/-- How a call ends: it returns, it panics, or it never returns. -/
inductive Outcome (α : Type) where
  | returned (a : α)
  | panicked (msg : String)
  | blocked
deriving DecidableEq, Repr

/-- The send statement `c <- sig`. A send on a nil channel blocks forever, a send on a
closed channel panics; an open channel takes the value (the loop started by
`DispatchChannel` is its receiver). -/
def send (c : Option Chan) (sig : Signal) : Outcome (Option Chan) :=
  match c with
  | none => .blocked
  | some ch =>
    if ch.closed then .panicked "send on closed channel"
    else .returned (some { ch with queue := ch.queue ++ [sig] })

/-- `DispatchChannel(src)`: a new dispatcher on top of the provided channel, with an empty
handler map and a fresh logger. -/
def DispatchChannel (src : Option Chan) : signals :=
  { handlers := [], source := src, log := [], invoked := [], closes := [], reloads := [] }

/-- Calling a registered `func()`. The closure of `RegisterCloser` calls `c.Close()` and
logs a non-nil error; the closure of `RegisterReloader` does the same with `r.Reload()`. -/
def Handler.call (handler : Handler) (s : signals) : signals :=
  let s := { s with invoked := s.invoked ++ [handler] }
  match handler with
  | .func _ => s
  | .closerFn c =>
    let s := { s with closes := s.closes ++ [c] }
    match c.Close with
    | none => s
    | some err => { s with log := s.log ++ [.Error "Closer on shutdown failed with :err" err] }
  | .reloaderFn r =>
    let s := { s with reloads := s.reloads ++ [r] }
    match r.Reload with
    | none => s
    | some err => { s with log := s.log ++ [.Error "Reloader failed with :err" err] }

/-- The body of the goroutine started by `handle`:
`for _, handler := range hs { handler() }`. -/
def goBatch (hs : List Handler) (s : signals) : signals :=
  hs.foldl (fun acc handler => handler.call acc) s

/-- One iteration of the loop of `handle` for the received signal `sig`: reads the
handlers of `sig`, logs, and starts a goroutine on them when there is at least one.
Returns the state and the slice handed to the started goroutine, if any. -/
def iteration (s : signals) (sig : Signal) : signals × Option (List Handler) :=
  let handlers := s.handlers.get sig
  let s := { s with log := s.log ++
    [.Info "Received signal :name to process by :count handlers" sig handlers.length] }
  if handlers.length > 0 then (s, some handlers) else (s, none)

/-- One delivery: a loop iteration followed by the run of the goroutine it started. -/
def deliver (s : signals) (sig : Signal) : signals :=
  match iteration s sig with
  | (s1, some hs) => goBatch hs s1
  | (s1, none) => s1

/-- The loop `for sig := range s.source`: receives the queued values, oldest first, and
delivers each. On a nil channel the receive never yields a value. -/
def handle (s : signals) : signals :=
  match s.source with
  | none => s
  | some ch => ch.queue.foldl deliver { s with source := some { ch with queue := [] } }

/-- `Emit`: sends on the source unless the receiver is nil. -/
def Emit (s : Option signals) (sig : Signal) : Outcome (Option signals) :=
  match s with
  | none => .returned none
  | some st =>
    match send st.source sig with
    | .returned c => .returned (some { st with source := c })
    | .panicked msg => .panicked msg
    | .blocked => .blocked

def Shutdown (s : Option signals) : Outcome (Option signals) :=
  Emit s SHUTDOWN

def Reload (s : Option signals) : Outcome (Option signals) :=
  Emit s RELOAD

/-- `On`: appends `target` to the slice of `sig` and logs the number of map keys. -/
def On (s : signals) (sig : Signal) (target : Handler) : signals :=
  let handlers := s.handlers.set sig (s.handlers.get sig ++ [target])
  { s with
    handlers := handlers
    log := s.log ++ [.Debug "Registered handler (:count total) for :name" sig handlers.length] }

def OnShutdown (s : signals) (target : Handler) : signals :=
  On (On s SIGINT target) SIGTERM target

def OnHUP (s : signals) (target : Handler) : signals :=
  On s SIGHUP target

def OnUSR1 (s : signals) (target : Handler) : signals :=
  On s SIGUSR1 target

def OnUSR2 (s : signals) (target : Handler) : signals :=
  On s SIGUSR2 target

/-- `RegisterCloser`: `none` is the nil interface value. -/
def RegisterCloser (s : signals) (c : Option Closer) : signals :=
  match c with
  | some c => OnShutdown s (.closerFn c)
  | none => s

/-- `RegisterReloader`: `none` is the nil interface value. -/
def RegisterReloader (s : signals) (r : Option Reloader) : signals :=
  match r with
  | some r => OnHUP s (.reloaderFn r)
  | none => s

/-- The handlers a delivery added to the record of calls: what follows the first
`n` recorded calls. -/
def callsSince (before after : signals) : List Handler :=
  after.invoked.drop before.invoked.length

/-- The `Close()` calls a delivery added to the record. -/
def closesSince (before after : signals) : List Closer :=
  after.closes.drop before.closes.length

/-- The `Reload()` calls a delivery added to the record. -/
def reloadsSince (before after : signals) : List Reloader :=
  after.reloads.drop before.reloads.length

/-- The components closed by the closures among `hs`, in order. -/
def closersOf (hs : List Handler) : List Closer :=
  hs.filterMap (fun h => match h with
    | .closerFn c => some c
    | _ => none)

/-- The components reloaded by the closures among `hs`, in order. -/
def reloadersOf (hs : List Handler) : List Reloader :=
  hs.filterMap (fun h => match h with
    | .reloaderFn r => some r
    | _ => none)

/-- An open channel with nothing queued, as made by `make(chan os.Signal)`. -/
def makeChan : Option Chan := some { closed := false, queue := [] }

/-- The builtin `close(c)` on a non-nil channel that is still open. -/
def closeChan (c : Chan) : Chan := { c with closed := true }

/-- A call on the dispatcher followed by the loop receiving everything queued and the
started goroutines running to completion (what the tests wait for). -/
def thenHandle (o : Outcome (Option signals)) : Outcome (Option signals) :=
  match o with
  | .returned (some s) => .returned (some (handle s))
  | other => other

/-! ## Lemmas on the handler map -/

theorem HandlerMap.get_nil (sig : Signal) : HandlerMap.get [] sig = [] := rfl

theorem HandlerMap.get_cons (e : Signal × List Handler) (m : HandlerMap) (sig : Signal) :
    HandlerMap.get (e :: m) sig = if e.1 = sig then e.2 else HandlerMap.get m sig := by
  unfold HandlerMap.get
  rw [List.find?_cons]
  by_cases h : e.1 = sig
  · have hb : (e.1 == sig) = true := by simpa using h
    simp only [hb, if_pos h]
  · have hb : (e.1 == sig) = false := by simpa using h
    simp only [hb, if_neg h]

theorem HandlerMap.any_cons_false (x : Signal × List Handler) (m : HandlerMap) (k : Signal)
    (hmiss : List.any (x :: m) (fun e => e.1 == k) = false) :
    x.1 ≠ k ∧ List.any m (fun e => e.1 == k) = false := by
  rw [List.any_cons, Bool.or_eq_false_iff] at hmiss
  exact ⟨by simpa using hmiss.1, hmiss.2⟩

theorem HandlerMap.get_map_replace (m : HandlerMap) (sig k : Signal) (hs : List Handler)
    (hk : k ≠ sig) :
    HandlerMap.get (m.map (fun e => if e.1 == sig then (sig, hs) else e)) k
      = HandlerMap.get m k := by
  induction m with
  | nil => rfl
  | cons e m ih =>
    rw [List.map_cons, HandlerMap.get_cons, HandlerMap.get_cons, ih]
    by_cases h : e.1 = sig
    · have hb : (e.1 == sig) = true := by simpa using h
      have h1 : ¬ sig = k := fun h2 => hk h2.symm
      have h2 : ¬ e.1 = k := fun h3 => hk (h3.symm.trans h)
      simp only [hb, if_true, if_neg h1, if_neg h2]
    · have hb : (e.1 == sig) = false := by simpa using h
      simp only [hb, Bool.false_eq_true, if_false]

theorem HandlerMap.get_map_hit (m : HandlerMap) (sig : Signal) (hs : List Handler)
    (hany : m.any (fun e => e.1 == sig) = true) :
    HandlerMap.get (m.map (fun e => if e.1 == sig then (sig, hs) else e)) sig = hs := by
  induction m with
  | nil => simp at hany
  | cons e m ih =>
    rw [List.map_cons, HandlerMap.get_cons]
    by_cases h : e.1 = sig
    · have hb : (e.1 == sig) = true := by simpa using h
      simp only [hb, if_true]
    · have hb : (e.1 == sig) = false := by simpa using h
      have hm : m.any (fun e => e.1 == sig) = true := by
        rw [List.any_cons, hb, Bool.false_or] at hany
        exact hany
      simp only [hb, Bool.false_eq_true, if_false, if_neg h]
      exact ih hm

theorem HandlerMap.get_of_not_any (m : HandlerMap) (k : Signal)
    (hmiss : m.any (fun x => x.1 == k) = false) : HandlerMap.get m k = [] := by
  induction m with
  | nil => rfl
  | cons x m ih =>
    obtain ⟨hx, hm⟩ := HandlerMap.any_cons_false x m k hmiss
    rw [HandlerMap.get_cons, ih hm, if_neg hx]

theorem HandlerMap.get_append_miss (m : HandlerMap) (e : Signal × List Handler) (k : Signal)
    (hmiss : m.any (fun x => x.1 == k) = false) :
    HandlerMap.get (m ++ [e]) k = if e.1 = k then e.2 else [] := by
  induction m with
  | nil =>
    rw [List.nil_append, HandlerMap.get_cons]
    rfl
  | cons x m ih =>
    obtain ⟨hx, hm⟩ := HandlerMap.any_cons_false x m k hmiss
    rw [List.cons_append, HandlerMap.get_cons, ih hm, if_neg hx]

theorem HandlerMap.get_append_other (m : HandlerMap) (e : Signal × List Handler) (k : Signal)
    (hk : e.1 ≠ k) : HandlerMap.get (m ++ [e]) k = HandlerMap.get m k := by
  induction m with
  | nil =>
    rw [List.nil_append, HandlerMap.get_cons, if_neg hk]
  | cons x m ih => rw [List.cons_append, HandlerMap.get_cons, HandlerMap.get_cons, ih]

/-- Reading after a write: the written key reads the written slice, every other key
reads what it read before. -/
theorem HandlerMap.get_set (m : HandlerMap) (sig k : Signal) (hs : List Handler) :
    HandlerMap.get (HandlerMap.set m sig hs) k = if k = sig then hs else HandlerMap.get m k := by
  unfold HandlerMap.set
  by_cases hany : m.any (fun e => e.1 == sig) = true
  · rw [if_pos hany]
    by_cases hk : k = sig
    · subst hk
      rw [if_pos rfl]
      exact HandlerMap.get_map_hit m k hs hany
    · rw [if_neg hk]
      exact HandlerMap.get_map_replace m sig k hs hk
  · rw [if_neg hany]
    have hmiss : m.any (fun e => e.1 == sig) = false := by
      cases hb : m.any (fun e => e.1 == sig)
      · rfl
      · exact absurd hb hany
    by_cases hk : k = sig
    · subst hk
      rw [if_pos rfl, HandlerMap.get_append_miss m _ k hmiss, if_pos rfl]
    · rw [if_neg hk]
      exact HandlerMap.get_append_other m _ k (fun h => hk h.symm)

/-! ## Lemmas on handler calls and the goroutine body -/

theorem Handler.call_invoked (h : Handler) (s : signals) :
    (h.call s).invoked = s.invoked ++ [h] := by
  cases h with
  | func n => rfl
  | closerFn c => cases hc : c.Close <;> simp [Handler.call, hc]
  | reloaderFn r => cases hr : r.Reload <;> simp [Handler.call, hr]

theorem Handler.call_handlers (h : Handler) (s : signals) :
    (h.call s).handlers = s.handlers := by
  cases h with
  | func n => rfl
  | closerFn c => cases hc : c.Close <;> simp [Handler.call, hc]
  | reloaderFn r => cases hr : r.Reload <;> simp [Handler.call, hr]

theorem Handler.call_closes (h : Handler) (s : signals) :
    (h.call s).closes = s.closes ++ closersOf [h] := by
  cases h with
  | func n => simp [Handler.call, closersOf]
  | closerFn c => cases hc : c.Close <;> simp [Handler.call, hc, closersOf]
  | reloaderFn r => cases hr : r.Reload <;> simp [Handler.call, hr, closersOf]

theorem Handler.call_reloads (h : Handler) (s : signals) :
    (h.call s).reloads = s.reloads ++ reloadersOf [h] := by
  cases h with
  | func n => simp [Handler.call, reloadersOf]
  | closerFn c => cases hc : c.Close <;> simp [Handler.call, hc, reloadersOf]
  | reloaderFn r => cases hr : r.Reload <;> simp [Handler.call, hr, reloadersOf]

theorem closersOf_cons (h : Handler) (hs : List Handler) :
    closersOf (h :: hs) = closersOf [h] ++ closersOf hs := by
  cases h <;> simp [closersOf, List.filterMap_cons]

theorem closersOf_append (xs ys : List Handler) :
    closersOf (xs ++ ys) = closersOf xs ++ closersOf ys := by
  simp [closersOf, List.filterMap_append]

theorem reloadersOf_cons (h : Handler) (hs : List Handler) :
    reloadersOf (h :: hs) = reloadersOf [h] ++ reloadersOf hs := by
  cases h <;> simp [reloadersOf, List.filterMap_cons]

theorem reloadersOf_append (xs ys : List Handler) :
    reloadersOf (xs ++ ys) = reloadersOf xs ++ reloadersOf ys := by
  simp [reloadersOf, List.filterMap_append]

theorem goBatch_cons (h : Handler) (hs : List Handler) (s : signals) :
    goBatch (h :: hs) s = goBatch hs (h.call s) := rfl

theorem goBatch_invoked (hs : List Handler) (s : signals) :
    (goBatch hs s).invoked = s.invoked ++ hs := by
  induction hs generalizing s with
  | nil => simp [goBatch]
  | cons h hs ih => rw [goBatch_cons, ih, Handler.call_invoked, List.append_assoc,
      List.singleton_append]

theorem goBatch_handlers (hs : List Handler) (s : signals) :
    (goBatch hs s).handlers = s.handlers := by
  induction hs generalizing s with
  | nil => rfl
  | cons h hs ih => rw [goBatch_cons, ih, Handler.call_handlers]

theorem goBatch_closes (hs : List Handler) (s : signals) :
    (goBatch hs s).closes = s.closes ++ closersOf hs := by
  induction hs generalizing s with
  | nil => simp [goBatch, closersOf]
  | cons h hs ih => rw [goBatch_cons, ih, Handler.call_closes, List.append_assoc,
      ← closersOf_cons]

theorem goBatch_reloads (hs : List Handler) (s : signals) :
    (goBatch hs s).reloads = s.reloads ++ reloadersOf hs := by
  induction hs generalizing s with
  | nil => simp [goBatch, reloadersOf]
  | cons h hs ih => rw [goBatch_cons, ih, Handler.call_reloads, List.append_assoc,
      ← reloadersOf_cons]

/-! ## Lemmas on one delivery -/

theorem deliver_eq (s : signals) (sig : Signal) :
    deliver s sig = goBatch (s.handlers.get sig) { s with log := s.log ++
      [.Info "Received signal :name to process by :count handlers" sig
        (s.handlers.get sig).length] } := by
  unfold deliver iteration
  by_cases h : (s.handlers.get sig).length > 0
  · simp only [if_pos h]
  · simp only [if_neg h]
    have h0 : s.handlers.get sig = [] := List.length_eq_zero.mp (by omega)
    rw [h0]
    rfl

theorem deliver_invoked (s : signals) (sig : Signal) :
    (deliver s sig).invoked = s.invoked ++ s.handlers.get sig := by
  rw [deliver_eq, goBatch_invoked]

theorem deliver_handlers (s : signals) (sig : Signal) :
    (deliver s sig).handlers = s.handlers := by
  rw [deliver_eq, goBatch_handlers]

theorem deliver_closes (s : signals) (sig : Signal) :
    (deliver s sig).closes = s.closes ++ closersOf (s.handlers.get sig) := by
  rw [deliver_eq, goBatch_closes]

theorem deliver_reloads (s : signals) (sig : Signal) :
    (deliver s sig).reloads = s.reloads ++ reloadersOf (s.handlers.get sig) := by
  rw [deliver_eq, goBatch_reloads]

theorem callsSince_deliver (s : signals) (sig : Signal) :
    callsSince s (deliver s sig) = s.handlers.get sig := by
  unfold callsSince
  rw [deliver_invoked, List.drop_left]

theorem closesSince_deliver (s : signals) (sig : Signal) :
    closesSince s (deliver s sig) = closersOf (s.handlers.get sig) := by
  unfold closesSince
  rw [deliver_closes, List.drop_left]

theorem reloadsSince_deliver (s : signals) (sig : Signal) :
    reloadsSince s (deliver s sig) = reloadersOf (s.handlers.get sig) := by
  unfold reloadsSince
  rw [deliver_reloads, List.drop_left]

/-- The loop on a channel holding exactly one value performs exactly that delivery. -/
theorem handle_single (s : signals) (ch : Chan) (sig : Signal)
    (hsrc : s.source = some ch) (hq : ch.queue = [sig]) :
    handle s = deliver { s with source := some { ch with queue := [] } } sig := by
  unfold handle
  rw [hsrc]
  simp only [hq, List.foldl_cons, List.foldl_nil]

/-! ## Lemmas on registration -/

theorem On_get (s : signals) (sig k : Signal) (target : Handler) :
    (On s sig target).handlers.get k
      = if k = sig then s.handlers.get sig ++ [target] else s.handlers.get k := by
  unfold On
  exact HandlerMap.get_set s.handlers sig k _

theorem DispatchChannel_get (src : Option Chan) (k : Signal) :
    (DispatchChannel src).handlers.get k = [] := rfl

theorem OnShutdown_get (s : signals) (k : Signal) (target : Handler) :
    (OnShutdown s target).handlers.get k
      = if k = SIGINT ∨ k = SIGTERM then s.handlers.get k ++ [target]
        else s.handlers.get k := by
  unfold OnShutdown
  rw [On_get, On_get, On_get]
  by_cases h1 : k = SIGTERM
  · subst h1
    simp
  · by_cases h2 : k = SIGINT
    · subst h2
      simp
    · simp [h1, h2]

theorem OnShutdown_invoked (s : signals) (target : Handler) :
    (OnShutdown s target).invoked = s.invoked := rfl

theorem OnShutdown_source (s : signals) (target : Handler) :
    (OnShutdown s target).source = s.source := rfl

theorem callsSince_deliver_twice (s : signals) (sig1 sig2 : Signal) :
    callsSince s (deliver (deliver s sig1) sig2)
      = s.handlers.get sig1 ++ s.handlers.get sig2 := by
  unfold callsSince
  rw [deliver_invoked, deliver_invoked, deliver_handlers, List.append_assoc, List.drop_left]

theorem count_closersOf (c : Closer) (hs : List Handler) :
    (closersOf hs).count c = hs.count (.closerFn c) := by
  induction hs with
  | nil => rfl
  | cons h hs ih =>
    rw [closersOf_cons, List.count_append, ih, List.count_cons]
    cases h with
    | func n => simp [closersOf]
    | closerFn d =>
      by_cases hd : d = c
      · subst hd
        simp [closersOf]
        omega
      · have hd2 : ¬ c = d := fun e => hd e.symm
        simp [closersOf, hd, hd2]
    | reloaderFn r => simp [closersOf]

theorem count_reloadersOf (r : Reloader) (hs : List Handler) :
    (reloadersOf hs).count r = hs.count (.reloaderFn r) := by
  induction hs with
  | nil => rfl
  | cons h hs ih =>
    rw [reloadersOf_cons, List.count_append, ih, List.count_cons]
    cases h with
    | func n => simp [reloadersOf]
    | closerFn c => simp [reloadersOf]
    | reloaderFn d =>
      by_cases hd : d = r
      · subst hd
        simp [reloadersOf]
        omega
      · have hd2 : ¬ r = d := fun e => hd e.symm
        simp [reloadersOf, hd, hd2]

theorem Handler.call_log_mono (h : Handler) (s : signals) (entry : LogEntry)
    (hmem : entry ∈ s.log) : entry ∈ (h.call s).log := by
  cases h with
  | func n => exact hmem
  | closerFn c => cases hc : c.Close <;> simp [Handler.call, hc, hmem]
  | reloaderFn r => cases hr : r.Reload <;> simp [Handler.call, hr, hmem]

theorem goBatch_log_mono (hs : List Handler) (s : signals) (entry : LogEntry)
    (hmem : entry ∈ s.log) : entry ∈ (goBatch hs s).log := by
  induction hs generalizing s with
  | nil => exact hmem
  | cons h hs ih =>
    rw [goBatch_cons]
    exact ih _ (Handler.call_log_mono h s entry hmem)

/-- A failing `Close()` of a closer closure in the batch ends up in the log. -/
theorem goBatch_logs_close_error (hs : List Handler) (s : signals) (c : Closer) (err : String)
    (hc : c.Close = some err) (hmem : Handler.closerFn c ∈ hs) :
    LogEntry.Error "Closer on shutdown failed with :err" err ∈ (goBatch hs s).log := by
  induction hs generalizing s with
  | nil => simp at hmem
  | cons h hs ih =>
    rw [goBatch_cons]
    rcases List.mem_cons.mp hmem with heq | htail
    · apply goBatch_log_mono
      rw [← heq]
      simp [Handler.call, hc]
    · exact ih _ htail

theorem RegisterCloser_get (s : signals) (c : Closer) (k : Signal) :
    (RegisterCloser s (some c)).handlers.get k
      = if k = SIGINT ∨ k = SIGTERM then s.handlers.get k ++ [.closerFn c]
        else s.handlers.get k :=
  OnShutdown_get s k (.closerFn c)

theorem RegisterReloader_get (s : signals) (r : Reloader) (k : Signal) :
    (RegisterReloader s (some r)).handlers.get k
      = if k = SIGHUP then s.handlers.get k ++ [.reloaderFn r] else s.handlers.get k := by
  unfold RegisterReloader OnHUP
  simp only
  rw [On_get]
  by_cases hk : k = SIGHUP
  · subst hk
    simp
  · simp [hk]

/-! ## Lemmas on emission -/

theorem Emit_open (s : signals) (ch : Chan) (sig : Signal)
    (hsrc : s.source = some ch) (hopen : ch.closed = false) :
    Emit (some s) sig
      = .returned (some { s with source := some { ch with queue := ch.queue ++ [sig] } }) := by
  simp [Emit, send, hsrc, hopen]

theorem Emit_then_handle (s : signals) (ch : Chan) (sig : Signal)
    (hsrc : s.source = some ch) (hopen : ch.closed = false) (hq : ch.queue = []) :
    thenHandle (Emit (some s) sig) = .returned (some (deliver s sig)) := by
  rw [Emit_open s ch sig hsrc hopen]
  unfold thenHandle
  simp only
  rw [handle_single _ { ch with queue := ch.queue ++ [sig] } sig rfl (by simp [hq])]
  cases s with
  | mk handlers source log invoked closes reloads =>
    cases ch with
    | mk closed queue =>
      simp only at hsrc hq
      subst hsrc hq
      rfl

/-! ## The claims -/

/-- C1: for every registry state and every signal `sig`, the loop iteration that takes
`sig` hands the registered list of `sig` to one goroutine (none when the list is empty),
and the goroutine calls exactly the handlers of that list, one call per registration,
one after the other in registration order: the calls made by the delivery are the
registered list itself, so their number is the length of the list, every handler is
called as many times as it is registered, and the call at each position is the handler
registered at that position. -/
theorem C1_delivery_calls_registered_list_in_order (s : signals) (sig : Signal) :
    (iteration s sig).2
        = (if (s.handlers.get sig).length > 0 then some (s.handlers.get sig) else none)
    ∧ (∀ (hs : List Handler) (st : signals), callsSince st (goBatch hs st) = hs)
    ∧ callsSince s (deliver s sig) = s.handlers.get sig
    ∧ (callsSince s (deliver s sig)).length = (s.handlers.get sig).length
    ∧ (∀ h : Handler, (callsSince s (deliver s sig)).count h = (s.handlers.get sig).count h)
    ∧ (∀ i : Nat, (callsSince s (deliver s sig))[i]? = (s.handlers.get sig)[i]?)
    ∧ (∀ ch : Chan, s.source = some ch → ch.queue = [sig] →
        callsSince s (handle s) = s.handlers.get sig) := by
  refine ⟨?_, ?_, callsSince_deliver s sig, ?_, ?_, ?_, ?_⟩
  · unfold iteration
    by_cases h : (s.handlers.get sig).length > 0
    · simp only [if_pos h]
    · simp only [if_neg h]
  · intro hs st
    unfold callsSince
    rw [goBatch_invoked, List.drop_left]
  · rw [callsSince_deliver]
  · intro h
    rw [callsSince_deliver]
  · intro i
    rw [callsSince_deliver]
  · intro ch hsrc hq
    rw [handle_single s ch sig hsrc hq]
    exact callsSince_deliver { s with source := some { ch with queue := [] } } sig

/-- Instance of C1: the loop of a dispatcher whose source holds one SIGTERM, with
`func 1`, `func 2` and again `func 1` registered on SIGTERM in that order. -/
theorem C1_delivery_calls_registered_list_in_order_witness :
    callsSince
        (On (On (On (DispatchChannel (some { closed := false, queue := [SIGTERM] }))
          SIGTERM (.func 1)) SIGTERM (.func 2)) SIGTERM (.func 1))
        (handle
          (On (On (On (DispatchChannel (some { closed := false, queue := [SIGTERM] }))
            SIGTERM (.func 1)) SIGTERM (.func 2)) SIGTERM (.func 1)))
      = (On (On (On (DispatchChannel (some { closed := false, queue := [SIGTERM] }))
          SIGTERM (.func 1)) SIGTERM (.func 2)) SIGTERM (.func 1)).handlers.get SIGTERM
    ∧ (On (On (On (DispatchChannel (some { closed := false, queue := [SIGTERM] }))
          SIGTERM (.func 1)) SIGTERM (.func 2)) SIGTERM (.func 1)).handlers.get SIGTERM
      = [.func 1, .func 2, .func 1] :=
  ⟨(C1_delivery_calls_registered_list_in_order
      (On (On (On (DispatchChannel (some { closed := false, queue := [SIGTERM] }))
        SIGTERM (.func 1)) SIGTERM (.func 2)) SIGTERM (.func 1)) SIGTERM).2.2.2.2.2.2
      { closed := false, queue := [SIGTERM] } rfl rfl,
    by decide⟩

/-- C2: for every dispatcher state (in particular every one built by `DispatchChannel`),
every signal `sig` and every handler `h`, after `On(sig, h)` the list of `sig` is its
previous list with `h` appended at the end and the list of every other signal is
unchanged; on a new dispatcher the list becomes `[h]`; `On` is a total function that
calls no handler and leaves the source alone; and registering `h` raises its number of
entries by one, also when it is already present. -/
theorem C2_On_appends_to_the_list_of_its_signal (s : signals) (sig : Signal) (h : Handler) :
    (∀ k : Signal, (On s sig h).handlers.get k
        = if k = sig then s.handlers.get sig ++ [h] else s.handlers.get k)
    ∧ (On s sig h).handlers.get sig = s.handlers.get sig ++ [h]
    ∧ (s.handlers.any (fun e => e.1 == sig) = false → (On s sig h).handlers.get sig = [h])
    ∧ (∀ src : Option Chan, (On (DispatchChannel src) sig h).handlers.get sig = [h])
    ∧ ((On s sig h).handlers.get sig).count h = (s.handlers.get sig).count h + 1
    ∧ ((On (On s sig h) sig h).handlers.get sig) = s.handlers.get sig ++ [h, h]
    ∧ (On s sig h).invoked = s.invoked
    ∧ (On s sig h).source = s.source := by
  have hself : (On s sig h).handlers.get sig = s.handlers.get sig ++ [h] := by
    rw [On_get, if_pos rfl]
  refine ⟨fun k => On_get s sig k h, hself, ?_, ?_, ?_, ?_, rfl, rfl⟩
  · intro hmiss
    rw [hself, HandlerMap.get_of_not_any s.handlers sig hmiss]
    rfl
  · intro src
    rw [On_get, if_pos rfl, DispatchChannel_get]
    rfl
  · rw [hself]
    simp
  · rw [On_get, if_pos rfl, hself]
    simp

/-- Instance of C2: SIGHUP has no entry in a dispatcher that only has `func 1` on
SIGTERM, and registering `func 2` on SIGHUP makes its list `[func 2]`. -/
theorem C2_On_appends_to_the_list_of_its_signal_witness :
    (On (On (DispatchChannel makeChan) SIGTERM (.func 1)) SIGHUP (.func 2)).handlers.get SIGHUP
      = [.func 2] :=
  (C2_On_appends_to_the_list_of_its_signal (On (DispatchChannel makeChan) SIGTERM (.func 1))
    SIGHUP (.func 2)).2.2.1 (by decide)

/-- C3: a delivery of `sig` calls no handler outside the list of `sig`, so a handler
registered only under other signals is not called; when `sig` has no registered handler
the delivery starts no goroutine and calls nothing. With `A` on SIGTERM, `B` on SIGHUP,
`C` on SIGUSR1 and `D` on SIGUSR2 on a new dispatcher, emitting SIGTERM runs exactly `A`,
SIGHUP exactly `B`, SIGUSR1 exactly `C`, SIGUSR2 exactly `D`, and emitting `os.Interrupt`
runs nothing (also when only a SIGTERM handler is registered). -/
theorem C3_delivery_runs_only_handlers_of_its_signal :
    (∀ (s : signals) (sig : Signal) (h : Handler),
        h ∉ s.handlers.get sig → h ∉ callsSince s (deliver s sig))
    ∧ (∀ (s : signals) (sig : Signal), s.handlers.get sig = [] →
        (iteration s sig).2 = none ∧ (deliver s sig).invoked = s.invoked
          ∧ (deliver s sig).closes = s.closes ∧ (deliver s sig).reloads = s.reloads)
    ∧ (∀ A B C D : Handler,
        let s0 := OnUSR2 (OnUSR1 (OnHUP (On (DispatchChannel makeChan) SIGTERM A) B) C) D
        thenHandle (Emit (some s0) SIGTERM) = .returned (some (deliver s0 SIGTERM))
        ∧ thenHandle (Emit (some s0) SIGHUP) = .returned (some (deliver s0 SIGHUP))
        ∧ thenHandle (Emit (some s0) SIGUSR1) = .returned (some (deliver s0 SIGUSR1))
        ∧ thenHandle (Emit (some s0) SIGUSR2) = .returned (some (deliver s0 SIGUSR2))
        ∧ thenHandle (Emit (some s0) os.Interrupt) = .returned (some (deliver s0 os.Interrupt))
        ∧ (deliver s0 SIGTERM).invoked = [A]
        ∧ (deliver s0 SIGHUP).invoked = [B]
        ∧ (deliver s0 SIGUSR1).invoked = [C]
        ∧ (deliver s0 SIGUSR2).invoked = [D]
        ∧ (deliver s0 os.Interrupt).invoked = [])
    ∧ (∀ A : Handler,
        let s1 := On (DispatchChannel makeChan) SIGTERM A
        thenHandle (Emit (some s1) os.Interrupt) = .returned (some (deliver s1 os.Interrupt))
        ∧ (deliver s1 os.Interrupt).invoked = []) := by
  refine ⟨?_, ?_, ?_, ?_⟩
  · intro s sig h hn
    rw [callsSince_deliver]
    exact hn
  · intro s sig h0
    refine ⟨?_, ?_, ?_, ?_⟩
    · simp [iteration, h0]
    · rw [deliver_invoked, h0, List.append_nil]
    · rw [deliver_closes, h0]
      simp [closersOf]
    · rw [deliver_reloads, h0]
      simp [reloadersOf]
  · intro A B C D s0
    have hE : ∀ sig, thenHandle (Emit (some s0) sig) = .returned (some (deliver s0 sig)) :=
      fun sig => Emit_then_handle s0 { closed := false, queue := [] } sig rfl rfl rfl
    have hI : ∀ sig, (deliver s0 sig).invoked = s0.handlers.get sig := by
      intro sig
      rw [deliver_invoked]
      rfl
    refine ⟨hE _, hE _, hE _, hE _, hE _, ?_, ?_, ?_, ?_, ?_⟩ <;>
      · rw [hI]
        simp [s0, OnUSR2, OnUSR1, OnHUP, On_get, DispatchChannel_get]
  · intro A s1
    refine ⟨Emit_then_handle s1 { closed := false, queue := [] } _ rfl rfl rfl, ?_⟩
    have hinv : s1.invoked = [] := rfl
    rw [deliver_invoked, hinv, List.nil_append, On_get]
    simp [DispatchChannel_get]

/-- Instance of C3: `func 7` is registered on SIGHUP only, and a delivery of SIGTERM
(which runs `func 1`) does not call it. -/
theorem C3_delivery_runs_only_handlers_of_its_signal_witness :
    Handler.func 7 ∉
        (On (On (DispatchChannel makeChan) SIGTERM (.func 1)) SIGHUP (.func 7)).handlers.get SIGTERM
    ∧ Handler.func 7 ∉
        callsSince (On (On (DispatchChannel makeChan) SIGTERM (.func 1)) SIGHUP (.func 7))
          (deliver (On (On (DispatchChannel makeChan) SIGTERM (.func 1)) SIGHUP (.func 7))
            SIGTERM) :=
  ⟨by decide, C3_delivery_runs_only_handlers_of_its_signal.1 _ SIGTERM (.func 7) (by decide)⟩

/-- C4: for every state and handler `h`, `OnShutdown(h)` appends `h` once to the list of
SIGINT and once to the list of SIGTERM and changes the list of no other signal. A
delivery of `os.Interrupt` followed by a delivery of SIGTERM then calls the old SIGINT
list, `h`, the old SIGTERM list, `h`: two calls of `h` on top of those due to earlier
registrations of `h`, and exactly the two calls `h, h` on a new dispatcher. -/
theorem C4_OnShutdown_registers_on_SIGINT_and_SIGTERM (s : signals) (h : Handler) :
    (∀ k : Signal, (OnShutdown s h).handlers.get k
        = if k = SIGINT ∨ k = SIGTERM then s.handlers.get k ++ [h] else s.handlers.get k)
    ∧ (OnShutdown s h).handlers.get SIGINT = s.handlers.get SIGINT ++ [h]
    ∧ (OnShutdown s h).handlers.get SIGTERM = s.handlers.get SIGTERM ++ [h]
    ∧ ((OnShutdown s h).handlers.get SIGINT).count h = (s.handlers.get SIGINT).count h + 1
    ∧ ((OnShutdown s h).handlers.get SIGTERM).count h = (s.handlers.get SIGTERM).count h + 1
    ∧ callsSince (OnShutdown s h) (deliver (deliver (OnShutdown s h) os.Interrupt) SIGTERM)
        = (s.handlers.get SIGINT ++ [h]) ++ (s.handlers.get SIGTERM ++ [h])
    ∧ (callsSince (OnShutdown s h)
          (deliver (deliver (OnShutdown s h) os.Interrupt) SIGTERM)).count h
        = (s.handlers.get SIGINT).count h + (s.handlers.get SIGTERM).count h + 2
    ∧ (h ∉ s.handlers.get SIGINT → h ∉ s.handlers.get SIGTERM →
        (callsSince (OnShutdown s h)
          (deliver (deliver (OnShutdown s h) os.Interrupt) SIGTERM)).count h = 2)
    ∧ (∀ src : Option Chan,
        (deliver (deliver (OnShutdown (DispatchChannel src) h) os.Interrupt) SIGTERM).invoked
          = [h, h]) := by
  have hI : (OnShutdown s h).handlers.get SIGINT = s.handlers.get SIGINT ++ [h] := by
    rw [OnShutdown_get]
    simp
  have hT : (OnShutdown s h).handlers.get SIGTERM = s.handlers.get SIGTERM ++ [h] := by
    rw [OnShutdown_get]
    simp
  have hcalls : callsSince (OnShutdown s h)
      (deliver (deliver (OnShutdown s h) os.Interrupt) SIGTERM)
        = (s.handlers.get SIGINT ++ [h]) ++ (s.handlers.get SIGTERM ++ [h]) := by
    rw [callsSince_deliver_twice, hT]
    exact congrArg (fun l => l ++ (s.handlers.get SIGTERM ++ [h])) hI
  have hcount : (callsSince (OnShutdown s h)
      (deliver (deliver (OnShutdown s h) os.Interrupt) SIGTERM)).count h
        = (s.handlers.get SIGINT).count h + (s.handlers.get SIGTERM).count h + 2 := by
    rw [hcalls]
    simp
    omega
  refine ⟨fun k => OnShutdown_get s k h, hI, hT, ?_, ?_, hcalls, hcount, ?_, ?_⟩
  · rw [hI]
    simp
  · rw [hT]
    simp
  · intro h1 h2
    rw [hcount, List.count_eq_zero_of_not_mem h1, List.count_eq_zero_of_not_mem h2]
  · intro src
    rw [deliver_invoked, deliver_invoked, deliver_handlers, OnShutdown_get, OnShutdown_get]
    simp [HandlerMap.get_nil, OnShutdown_invoked, DispatchChannel]

/-- Instance of C4: a dispatcher with `func 1` on SIGTERM and `func 3` on SIGINT; the
handler `func 2` given to `OnShutdown` is called twice by the two deliveries. -/
theorem C4_OnShutdown_registers_on_SIGINT_and_SIGTERM_witness :
    (callsSince
        (OnShutdown (On (On (DispatchChannel makeChan) SIGTERM (.func 1)) SIGINT (.func 3))
          (.func 2))
        (deliver (deliver
          (OnShutdown (On (On (DispatchChannel makeChan) SIGTERM (.func 1)) SIGINT (.func 3))
            (.func 2)) os.Interrupt) SIGTERM)).count (.func 2) = 2 :=
  (C4_OnShutdown_registers_on_SIGINT_and_SIGTERM
    (On (On (DispatchChannel makeChan) SIGTERM (.func 1)) SIGINT (.func 3))
    (.func 2)).2.2.2.2.2.2.2.1 (by decide) (by decide)

/-- C5: `Shutdown()` is `Emit(SIGTERM)` on every receiver. On a dispatcher whose source is
open it returns after queueing the single value SIGTERM, which differs from SIGINT, so
with nothing else queued the loop performs exactly the delivery of SIGTERM and the calls
made are the SIGTERM list. After `OnShutdown(h)`, `Shutdown()` calls the handlers
registered on SIGTERM and then `h`: one call of `h` on top of earlier registrations of
`h`, and exactly the one call `h` on a new dispatcher. -/
theorem C5_Shutdown_is_Emit_SIGTERM (s : signals) (ch : Chan) (h : Handler)
    (hsrc : s.source = some ch) (hopen : ch.closed = false) (hq : ch.queue = []) :
    (∀ r : Option signals, Shutdown r = Emit r SIGTERM)
    ∧ Shutdown (some s)
        = .returned (some { s with source := some { ch with queue := [SIGTERM] } })
    ∧ SIGTERM ≠ SIGINT
    ∧ thenHandle (Shutdown (some s)) = .returned (some (deliver s SIGTERM))
    ∧ callsSince s (deliver s SIGTERM) = s.handlers.get SIGTERM
    ∧ thenHandle (Shutdown (some (OnShutdown s h)))
        = .returned (some (deliver (OnShutdown s h) SIGTERM))
    ∧ callsSince (OnShutdown s h) (deliver (OnShutdown s h) SIGTERM)
        = s.handlers.get SIGTERM ++ [h]
    ∧ (callsSince (OnShutdown s h) (deliver (OnShutdown s h) SIGTERM)).count h
        = (s.handlers.get SIGTERM).count h + 1
    ∧ (h ∉ s.handlers.get SIGTERM →
        (callsSince (OnShutdown s h) (deliver (OnShutdown s h) SIGTERM)).count h = 1)
    ∧ (deliver (OnShutdown (DispatchChannel makeChan) h) SIGTERM).invoked = [h] := by
  have hT : (OnShutdown s h).handlers.get SIGTERM = s.handlers.get SIGTERM ++ [h] := by
    rw [OnShutdown_get]
    simp
  refine ⟨fun r => rfl, ?_, by decide, ?_, callsSince_deliver s SIGTERM, ?_, ?_, ?_, ?_, ?_⟩
  · unfold Shutdown
    rw [Emit_open s ch SHUTDOWN hsrc hopen, hq]
    rfl
  · exact Emit_then_handle s ch SHUTDOWN hsrc hopen hq
  · exact Emit_then_handle (OnShutdown s h) ch SHUTDOWN
      ((OnShutdown_source s h).trans hsrc) hopen hq
  · rw [callsSince_deliver, hT]
  · rw [callsSince_deliver, hT]
    simp
  · intro hnot
    rw [callsSince_deliver, hT, List.count_append, List.count_eq_zero_of_not_mem hnot]
    simp
  · rw [deliver_invoked, OnShutdown_get]
    simp [HandlerMap.get_nil, OnShutdown_invoked, DispatchChannel]

/-- Instance of C5: a new dispatcher on an open channel with `func 1` on SIGTERM, and
`func 2` as the handler given to `OnShutdown`. -/
theorem C5_Shutdown_is_Emit_SIGTERM_witness :
    thenHandle (Shutdown (some (OnShutdown (On (DispatchChannel makeChan) SIGTERM (.func 1))
        (.func 2))))
      = .returned (some (deliver (OnShutdown (On (DispatchChannel makeChan) SIGTERM (.func 1))
          (.func 2)) SIGTERM))
    ∧ callsSince (OnShutdown (On (DispatchChannel makeChan) SIGTERM (.func 1)) (.func 2))
        (deliver (OnShutdown (On (DispatchChannel makeChan) SIGTERM (.func 1)) (.func 2))
          SIGTERM)
      = (On (DispatchChannel makeChan) SIGTERM (.func 1)).handlers.get SIGTERM ++ [.func 2]
    ∧ (callsSince (OnShutdown (On (DispatchChannel makeChan) SIGTERM (.func 1)) (.func 2))
        (deliver (OnShutdown (On (DispatchChannel makeChan) SIGTERM (.func 1)) (.func 2))
          SIGTERM)).count (.func 2) = 1 :=
  have key := C5_Shutdown_is_Emit_SIGTERM (On (DispatchChannel makeChan) SIGTERM (.func 1))
    { closed := false, queue := [] } (.func 2) rfl rfl rfl
  ⟨key.2.2.2.2.2.1, key.2.2.2.2.2.2.1, key.2.2.2.2.2.2.2.2.1 (by decide)⟩

/-- C6: for every closer `c` and every dispatcher whose source is open with nothing
queued, `RegisterCloser(c)` followed by `Shutdown()` returns normally at the call site,
whatever `Close` returns, and the delivery it triggers runs the handlers registered on
SIGTERM followed by the closure of `c`: `Close` is called on `c` once for this
registration (on top of the calls due to earlier registrations of `c`), hence exactly
once when `c` was not registered before. When `Close` returns an error the closure
records the call, writes the error to the log and returns; the handlers after it in the
batch are still called. -/
theorem C6_RegisterCloser_then_Shutdown_calls_Close_once (s : signals) (c : Closer)
    (ch : Chan) (hsrc : s.source = some ch) (hopen : ch.closed = false)
    (hq : ch.queue = []) :
    (RegisterCloser s (some c)).handlers.get SIGTERM
        = s.handlers.get SIGTERM ++ [.closerFn c]
    ∧ Shutdown (some (RegisterCloser s (some c)))
        = .returned (some { RegisterCloser s (some c) with
            source := some { ch with queue := [SIGTERM] } })
    ∧ thenHandle (Shutdown (some (RegisterCloser s (some c))))
        = .returned (some (deliver (RegisterCloser s (some c)) SIGTERM))
    ∧ callsSince (RegisterCloser s (some c)) (deliver (RegisterCloser s (some c)) SIGTERM)
        = s.handlers.get SIGTERM ++ [.closerFn c]
    ∧ closesSince (RegisterCloser s (some c)) (deliver (RegisterCloser s (some c)) SIGTERM)
        = closersOf (s.handlers.get SIGTERM) ++ [c]
    ∧ (closesSince (RegisterCloser s (some c))
          (deliver (RegisterCloser s (some c)) SIGTERM)).count c
        = (s.handlers.get SIGTERM).count (.closerFn c) + 1
    ∧ (Handler.closerFn c ∉ s.handlers.get SIGTERM →
        (closesSince (RegisterCloser s (some c))
          (deliver (RegisterCloser s (some c)) SIGTERM)).count c = 1)
    ∧ (∀ (err : String) (st : signals), c.Close = some err →
        (Handler.closerFn c).call st
          = { st with
              invoked := st.invoked ++ [.closerFn c]
              closes := st.closes ++ [c]
              log := st.log ++ [.Error "Closer on shutdown failed with :err" err] })
    ∧ (∀ (pre post : List Handler) (st : signals),
        callsSince st (goBatch (pre ++ Handler.closerFn c :: post) st)
          = pre ++ Handler.closerFn c :: post)
    ∧ (∀ err : String, c.Close = some err →
        LogEntry.Error "Closer on shutdown failed with :err" err
          ∈ (deliver (RegisterCloser s (some c)) SIGTERM).log) := by
  have hT : (RegisterCloser s (some c)).handlers.get SIGTERM
      = s.handlers.get SIGTERM ++ [.closerFn c] := by
    rw [RegisterCloser_get]
    simp
  have hsrc1 : (RegisterCloser s (some c)).source = some ch := hsrc
  have hcl : closesSince (RegisterCloser s (some c))
      (deliver (RegisterCloser s (some c)) SIGTERM)
        = closersOf (s.handlers.get SIGTERM) ++ [c] := by
    rw [closesSince_deliver, hT, closersOf_append]
    rfl
  have hcount : (closesSince (RegisterCloser s (some c))
      (deliver (RegisterCloser s (some c)) SIGTERM)).count c
        = (s.handlers.get SIGTERM).count (.closerFn c) + 1 := by
    rw [hcl, List.count_append, count_closersOf]
    simp
  refine ⟨hT, ?_, ?_, ?_, hcl, hcount, ?_, ?_, ?_, ?_⟩
  · unfold Shutdown
    rw [Emit_open _ ch SHUTDOWN hsrc1 hopen, hq]
    rfl
  · exact Emit_then_handle _ ch SHUTDOWN hsrc1 hopen hq
  · rw [callsSince_deliver, hT]
  · intro hnot
    rw [hcount, List.count_eq_zero_of_not_mem hnot]
  · intro err st hc
    simp [Handler.call, hc]
  · intro pre post st
    unfold callsSince
    rw [goBatch_invoked, List.drop_left]
  · intro err hc
    rw [deliver_eq]
    apply goBatch_logs_close_error _ _ c err hc
    rw [hT]
    simp

/-- Instance of C6: a new dispatcher on an open channel with `func 1` on SIGTERM and a
closer whose `Close` fails with "boom". -/
theorem C6_RegisterCloser_then_Shutdown_calls_Close_once_witness :
    (closesSince
        (RegisterCloser (On (DispatchChannel makeChan) SIGTERM (.func 1))
          (some { id := 0, Close := some "boom" }))
        (deliver
          (RegisterCloser (On (DispatchChannel makeChan) SIGTERM (.func 1))
            (some { id := 0, Close := some "boom" })) SIGTERM)).count
        { id := 0, Close := some "boom" } = 1
    ∧ LogEntry.Error "Closer on shutdown failed with :err" "boom"
        ∈ (deliver
          (RegisterCloser (On (DispatchChannel makeChan) SIGTERM (.func 1))
            (some { id := 0, Close := some "boom" })) SIGTERM).log :=
  have key := C6_RegisterCloser_then_Shutdown_calls_Close_once
    (On (DispatchChannel makeChan) SIGTERM (.func 1)) { id := 0, Close := some "boom" }
    { closed := false, queue := [] } rfl rfl rfl
  ⟨key.2.2.2.2.2.2.1 (by decide), key.2.2.2.2.2.2.2.2.2 "boom" rfl⟩

/-- C7: for every reloader `r`, `RegisterReloader(r)` appends exactly one handler, the
closure of `r`, to the SIGHUP list and changes no other list. In every later state with
these handlers a delivery of SIGHUP calls `Reload` on `r` once for this registration (on
top of earlier registrations of `r`, so exactly once when there is none), and a delivery
of any other signal, SIGTERM and SIGINT included, makes the `Reload` calls it made
before the registration: none on `r` when `r` is not registered there; `Shutdown()` on
an open source with nothing queued triggers exactly that delivery of SIGTERM. Symmetrically
the delivery of SIGHUP after `RegisterCloser(c)` makes the `Close` calls it made before:
none on `c` when `c` is not registered on SIGHUP. -/
theorem C7_RegisterReloader_registers_on_SIGHUP_only (s : signals) (r : Reloader)
    (c : Closer) :
    (∀ k : Signal, (RegisterReloader s (some r)).handlers.get k
        = if k = SIGHUP then s.handlers.get k ++ [.reloaderFn r] else s.handlers.get k)
    ∧ (∀ st : signals, st.handlers = (RegisterReloader s (some r)).handlers →
        reloadsSince st (deliver st SIGHUP) = reloadersOf (s.handlers.get SIGHUP) ++ [r]
        ∧ (reloadsSince st (deliver st SIGHUP)).count r
            = (s.handlers.get SIGHUP).count (.reloaderFn r) + 1
        ∧ (Handler.reloaderFn r ∉ s.handlers.get SIGHUP →
            (reloadsSince st (deliver st SIGHUP)).count r = 1))
    ∧ (∀ (st : signals) (sig : Signal), st.handlers = (RegisterReloader s (some r)).handlers →
        sig ≠ SIGHUP →
        reloadsSince st (deliver st sig) = reloadsSince s (deliver s sig)
        ∧ (Handler.reloaderFn r ∉ s.handlers.get sig →
            (reloadsSince st (deliver st sig)).count r = 0))
    ∧ (∀ ch : Chan, s.source = some ch → ch.closed = false → ch.queue = [] →
        thenHandle (Shutdown (some (RegisterReloader s (some r))))
          = .returned (some (deliver (RegisterReloader s (some r)) SIGTERM)))
    ∧ (closesSince (RegisterCloser s (some c)) (deliver (RegisterCloser s (some c)) SIGHUP)
        = closesSince s (deliver s SIGHUP))
    ∧ (Handler.closerFn c ∉ s.handlers.get SIGHUP →
        (closesSince (RegisterCloser s (some c))
          (deliver (RegisterCloser s (some c)) SIGHUP)).count c = 0) := by
  have hclose : closesSince (RegisterCloser s (some c))
      (deliver (RegisterCloser s (some c)) SIGHUP) = closersOf (s.handlers.get SIGHUP) := by
    rw [closesSince_deliver, RegisterCloser_get]
    simp
  refine ⟨fun k => RegisterReloader_get s r k, ?_, ?_, ?_, ?_, ?_⟩
  · intro st hst
    have hrl : reloadsSince st (deliver st SIGHUP)
        = reloadersOf (s.handlers.get SIGHUP) ++ [r] := by
      rw [reloadsSince_deliver, hst, RegisterReloader_get, if_pos rfl, reloadersOf_append]
      rfl
    have hcount : (reloadsSince st (deliver st SIGHUP)).count r
        = (s.handlers.get SIGHUP).count (.reloaderFn r) + 1 := by
      rw [hrl, List.count_append, count_reloadersOf]
      simp
    refine ⟨hrl, hcount, ?_⟩
    intro hnot
    rw [hcount, List.count_eq_zero_of_not_mem hnot]
  · intro st sig hst hsig
    have hrl : reloadsSince st (deliver st sig) = reloadersOf (s.handlers.get sig) := by
      rw [reloadsSince_deliver, hst, RegisterReloader_get, if_neg hsig]
    refine ⟨?_, ?_⟩
    · rw [hrl, reloadsSince_deliver]
    · intro hnot
      rw [hrl, count_reloadersOf, List.count_eq_zero_of_not_mem hnot]
  · intro ch hsrc hopen hq
    exact Emit_then_handle (RegisterReloader s (some r)) ch SHUTDOWN hsrc hopen hq
  · rw [hclose, closesSince_deliver]
  · intro hnot
    rw [hclose, count_closersOf, List.count_eq_zero_of_not_mem hnot]

/-- Instance of C7: on a new dispatcher with `func 1` on SIGTERM, after registering the
reloader `0`, a delivery of SIGHUP reloads it once and a delivery of SIGTERM does not. -/
theorem C7_RegisterReloader_registers_on_SIGHUP_only_witness :
    (reloadsSince
        (RegisterReloader (On (DispatchChannel makeChan) SIGTERM (.func 1))
          (some { id := 0, Reload := none }))
        (deliver
          (RegisterReloader (On (DispatchChannel makeChan) SIGTERM (.func 1))
            (some { id := 0, Reload := none })) SIGHUP)).count
        { id := 0, Reload := none } = 1
    ∧ (reloadsSince
        (RegisterReloader (On (DispatchChannel makeChan) SIGTERM (.func 1))
          (some { id := 0, Reload := none }))
        (deliver
          (RegisterReloader (On (DispatchChannel makeChan) SIGTERM (.func 1))
            (some { id := 0, Reload := none })) SIGTERM)).count
        { id := 0, Reload := none } = 0 :=
  have key := C7_RegisterReloader_registers_on_SIGHUP_only
    (On (DispatchChannel makeChan) SIGTERM (.func 1)) { id := 0, Reload := none }
    { id := 0, Close := none }
  ⟨(key.2.1 _ rfl).2.2 (by decide), (key.2.2.1 _ SIGTERM rfl (by decide)).2 (by decide)⟩

/-- C8: `RegisterCloser(nil)` and `RegisterReloader(nil)` return without changing the
dispatcher: every handler list is what it was, and a later delivery of any signal
(SIGINT, SIGTERM and SIGHUP included) calls exactly the handlers registered before. -/
theorem C8_registering_nil_component_is_a_no_op (s : signals) :
    RegisterCloser s none = s
    ∧ RegisterReloader s none = s
    ∧ (∀ k : Signal, (RegisterCloser s none).handlers.get k = s.handlers.get k)
    ∧ (∀ k : Signal, (RegisterReloader s none).handlers.get k = s.handlers.get k)
    ∧ (∀ sig : Signal,
        deliver (RegisterReloader (RegisterCloser s none) none) sig = deliver s sig)
    ∧ (∀ sig : Signal,
        callsSince (RegisterReloader (RegisterCloser s none) none)
          (deliver (RegisterReloader (RegisterCloser s none) none) sig)
          = s.handlers.get sig) :=
  ⟨rfl, rfl, fun _ => rfl, fun _ => rfl, fun _ => rfl, fun sig => callsSince_deliver s sig⟩

/-- C9, as stated, fails: on a dispatcher whose source has been closed (the loop has
nothing left to receive and has ended), `Emit`, `Shutdown` and `Reload` panic on the
send, so emission does not complete in every state. -/
theorem C9_counterexample_Emit_panics_on_closed_source :
    handle (DispatchChannel (some (closeChan { closed := false, queue := [] })))
        = DispatchChannel (some (closeChan { closed := false, queue := [] }))
    ∧ Emit (some (DispatchChannel (some (closeChan { closed := false, queue := [] })))) SIGTERM
        = .panicked "send on closed channel"
    ∧ Shutdown (some (DispatchChannel (some (closeChan { closed := false, queue := [] }))))
        = .panicked "send on closed channel"
    ∧ Reload (some (DispatchChannel (some (closeChan { closed := false, queue := [] }))))
        = .panicked "send on closed channel"
    ∧ ¬ (∀ (s : signals) (sig : Signal), ∃ r, Emit (some s) sig = .returned r) := by
  refine ⟨rfl, rfl, rfl, rfl, ?_⟩
  intro hall
  obtain ⟨r, hr⟩ := hall
    (DispatchChannel (some (closeChan { closed := false, queue := [] }))) SIGTERM
  have hp : Emit (some (DispatchChannel (some (closeChan { closed := false, queue := [] }))))
      SIGTERM = .panicked "send on closed channel" := rfl
  rw [hp] at hr
  cases hr

/-- C9, amended: for every dispatcher whose source is a channel that has not been closed
and every signal, `Emit(sig)` returns normally with `sig` queued on the source, and so do
`Shutdown()` (queueing SIGTERM) and `Reload()` (queueing SIGHUP). -/
theorem C9_Emit_returns_on_open_source (s : signals) (ch : Chan) (sig : Signal)
    (hsrc : s.source = some ch) (hopen : ch.closed = false) :
    Emit (some s) sig
        = .returned (some { s with source := some { ch with queue := ch.queue ++ [sig] } })
    ∧ Shutdown (some s)
        = .returned (some { s with source := some { ch with queue := ch.queue ++ [SIGTERM] } })
    ∧ Reload (some s)
        = .returned (some { s with source := some { ch with queue := ch.queue ++ [SIGHUP] } }) :=
  ⟨Emit_open s ch sig hsrc hopen, Emit_open s ch SHUTDOWN hsrc hopen,
    Emit_open s ch RELOAD hsrc hopen⟩

/-- Instance of the amended C9: a new dispatcher on an open channel that already holds
SIGHUP. -/
theorem C9_Emit_returns_on_open_source_witness :
    Emit (some (DispatchChannel (some { closed := false, queue := [SIGHUP] }))) SIGUSR1
      = .returned (some { DispatchChannel (some { closed := false, queue := [SIGHUP] }) with
          source := some { closed := false, queue := [SIGHUP, SIGUSR1] } }) :=
  (C9_Emit_returns_on_open_source (DispatchChannel (some { closed := false, queue := [SIGHUP] }))
    { closed := false, queue := [SIGHUP] } SIGUSR1 rfl rfl).1

/-- C10: on a nil receiver `Emit` returns normally for every signal, with no dispatcher
to send to and therefore nothing for a loop to deliver; `Shutdown()` and `Reload()` on a
nil receiver are that same call of `Emit` and return normally too. -/
theorem C10_Emit_on_nil_receiver_is_a_no_op (sig : Signal) :
    Emit none sig = .returned none
    ∧ Shutdown none = .returned none
    ∧ Reload none = .returned none
    ∧ Shutdown none = Emit none SIGTERM
    ∧ Reload none = Emit none SIGHUP
    ∧ thenHandle (Emit none sig) = .returned none :=
  ⟨rfl, rfl, rfl, rfl, rfl, rfl⟩

end GoSignals
